import Mathlib

/-!
Verification of the GTK AT-SPI text adapter (gtk/a11y/gtkatspitext.c).

This file gives a shallow embedding of the D-Bus method and property
handlers of the AT-SPI `Text` interface adapter, `accessible_text_handle_method`
and `accessible_text_get_property`, and proves properties of them.

Modelling conventions:

* The `GtkAccessibleText` capability interface (declared in
  `gtkaccessibletext.h`, outside the reviewed excerpt) is modelled as a
  structure of pure query functions, since all of its operations used by
  the adapter are getters.  `GBytes *` results that may be `NULL` are
  modelled as `Option String` (UTF-8 contents as a sequence of Unicode
  characters).
* C `guint`/`gsize` values are modelled as `Nat`, C `int` as `Int`.
  Implicit conversions at call boundaries are made explicit:
  `intToGuint` models the `int` → `unsigned int` conversion and
  `gintOfNat` models the `(int)` cast of an unsigned value.  Where the
  adapter mixes `int` and `gsize` arithmetic we use exact integer
  arithmetic, which agrees with the C computation for the text offsets
  GTK produces (all below `2 ^ 31`).
* A handler invocation is modelled as a total function producing a
  `HandlerResult`: a D-Bus reply, `noReply` when the dispatch chain falls
  through without replying, or `crash` for the contract violations the C
  code can hit (`g_assert_not_reached`, dereferencing a `NULL` `GBytes`,
  `g_variant_get` on a signature GDBus would have rejected).
* The object state is threaded explicitly through every capability call
  (`ATObjectState`), so frame properties (the adapter never mutates the
  accessible text object) are expressible.
-/

/-- The constant `G_MAXUINT` for 32-bit `guint`. -/
def G_MAXUINT : Nat := 2 ^ 32 - 1

/-- The constant `G_MAXINT` for 32-bit `int`. -/
def G_MAXINT : Int := 2 ^ 31 - 1

/-- The implicit C conversion of a 32-bit `int` value to `unsigned int`:
reduction modulo `2 ^ 32`. -/
def intToGuint (i : Int) : Nat := (i % (2 ^ 32 : Int)).toNat

/-- The C cast `(int)` of an unsigned value: truncate modulo `2 ^ 32`,
then interpret in two-complement. -/
def gintOfNat (n : Nat) : Int :=
  if n % 2 ^ 32 < 2 ^ 31 then ((n % 2 ^ 32 : Nat) : Int)
  else ((n % 2 ^ 32 : Nat) : Int) - 2 ^ 32

/-- Model of `g_utf8_strlen (s, -1)`: the number of Unicode characters in a UTF-8
string (not the number of bytes). -/
def g_utf8_strlen (s : String) : Nat := s.length

/-- Model of `g_utf8_get_char (g_utf8_offset_to_pointer (s, i))`: the code point of
the character at character index `i` of `s`. -/
def g_utf8_get_char_at (s : String) (i : Nat) : Nat :=
  (s.data.getD i (Char.ofNat 0)).toNat

/-- Model of `GtkAccessibleTextRange` (offsets are `gsize` in C). -/
structure GtkAccessibleTextRange where
  start : Nat
  length : Nat
deriving Repr, DecidableEq, Inhabited

/-- Model of `GtkAccessibleTextGranularity`, the toolkit-side granularity enum. -/
inductive GtkAccessibleTextGranularity where
  | character
  | word
  | sentence
  | line
  | paragraph
deriving Repr, DecidableEq

/-- Model of `atspi_granularity_to_gtk` (gtkatspitext.c:48-66).  The wire values of
`AtspiTextGranularity` are `ATSPI_TEXT_GRANULARITY_CHAR = 0`, `WORD = 1`,
`SENTENCE = 2`, `LINE = 3`, `PARAGRAPH = 4`; every other value falls into
the `default: g_assert_not_reached ()` branch, modelled as `none`. -/
def atspi_granularity_to_gtk (granularity : Nat) :
    Option GtkAccessibleTextGranularity :=
  match granularity with
  | 0 => some .character
  | 1 => some .word
  | 2 => some .sentence
  | 3 => some .line
  | 4 => some .paragraph
  | _ => none

/-- The `GtkAccessibleText` capability interface as the adapter sees it:
the five query operations it calls.  All are getters in the interface
declaration (which lies outside the reviewed excerpt), so they are
modelled as pure functions of the object.

* `get_contents start end` returns the UTF-8 slice `[start, end)` of the
  contents as `GBytes` (nullable).
* `get_contents_at offset granularity` returns the slice around `offset`
  at the given granularity together with the two `unsigned int`
  out-parameters `start` and `end` (nullable).
* `get_attributes offset` returns, zipped, the ranges and the
  name/value pairs produced through its `n_attrs`, `ranges`,
  `attribute_names`, `attribute_values` out-parameters.
* `get_selection` returns the selection ranges produced through its
  `n_ranges`, `ranges` out-parameters. -/
structure GtkAccessibleText where
  get_caret_position : Nat
  get_contents : Nat → Nat → Option String
  get_contents_at : Nat → GtkAccessibleTextGranularity →
    Option (String × Nat × Nat)
  get_attributes : Nat → List (GtkAccessibleTextRange × String × String)
  get_selection : List GtkAccessibleTextRange

/-- The state of the per-widget accessible object behind the D-Bus object
path: the accessible text capability of the widget. -/
structure ATObjectState where
  cap : GtkAccessibleText

/-- Model of `gtk_accessible_text_get_caret_position`, threaded through the
object state.  The operation is a getter: it reads the state and leaves it
unchanged. -/
def gtk_accessible_text_get_caret_position (st : ATObjectState) :
    Nat × ATObjectState :=
  (st.cap.get_caret_position, st)

/-- Model of `gtk_accessible_text_get_contents`, threaded through the object
state. -/
def gtk_accessible_text_get_contents (st : ATObjectState)
    (start stop : Nat) : Option String × ATObjectState :=
  (st.cap.get_contents start stop, st)

/-- Model of `gtk_accessible_text_get_contents_at`, threaded through the
object state. -/
def gtk_accessible_text_get_contents_at (st : ATObjectState) (offset : Nat)
    (granularity : GtkAccessibleTextGranularity) :
    Option (String × Nat × Nat) × ATObjectState :=
  (st.cap.get_contents_at offset granularity, st)

/-- Model of `gtk_accessible_text_get_attributes`, threaded through the
object state. -/
def gtk_accessible_text_get_attributes (st : ATObjectState) (offset : Nat) :
    List (GtkAccessibleTextRange × String × String) × ATObjectState :=
  (st.cap.get_attributes offset, st)

/-- Model of `gtk_accessible_text_get_selection`, threaded through the
object state. -/
def gtk_accessible_text_get_selection (st : ATObjectState) :
    List GtkAccessibleTextRange × ATObjectState :=
  (st.cap.get_selection, st)

/-- The D-Bus parameter tuples the handler unpacks with `g_variant_get`:
`()`, `(i)`, `(ii)`, `(iu)` and `(i&s)`. -/
inductive MethodParams where
  | unit
  | i (a : Int)
  | ii (a b : Int)
  | iu (a : Int) (u : Nat)
  | istr (a : Int) (s : String)
deriving Repr, DecidableEq

/-- The D-Bus reply payloads the handler builds with `g_variant_new`. -/
inductive WireValue where
  | i (v : Int)
  | s (v : String)
  | ii (a b : Int)
  | sii (v : String) (a b : Int)
  | dict (entries : List (String × String)) (a b : Int)
deriving Repr, DecidableEq

/-- The D-Bus error domains used by the handler. -/
inductive DBusError where
  | notSupported
  | invalidArgs
deriving Repr, DecidableEq

/-- A reply sent on the invocation: a value or an error. -/
inductive Reply where
  | value (v : WireValue)
  | error (e : DBusError) (msg : String)
deriving Repr, DecidableEq

/-- Result of one handler invocation.  `noReply` is the fall-through of
the dispatch chain (the C function returns without replying); `crash`
models the undefined behaviours reachable in the C code: the
`g_assert_not_reached` in `atspi_granularity_to_gtk`, `g_bytes_get_data`
on a `NULL` `GBytes`, and `g_variant_get` on parameters whose signature
does not match (GDBus validates signatures, so well-typed invocations
never reach that last case). -/
inductive HandlerResult where
  | reply (r : Reply)
  | noReply
  | crash
deriving Repr, DecidableEq

/-- The loop body of the `GetAttributes` branch (gtkatspitext.c:182-187):
one pass over the attributes, accumulating the `a{ss}` builder entries,
`start = MAX (start, ranges[i].start)` and
`end = MIN (end, start + ranges[i].length)` — note that the `end` update
uses the already-updated running `start`, not `ranges[i].start`.

The accumulators are exact integers where the C accumulators are 32-bit
`int` fed by `gsize` range fields, so the model agrees with the C loop
only for ranges with `start + length < 2 ^ 31`: then every `MAX` result
assigned back to `int start` is below `2 ^ 31`, the `gsize` sum
`start + ranges[i].length` stays below `2 ^ 32` (no 64-bit wrap), and the
`int end` accumulator, seeded with `G_MAXINT` and only ever decreased by
`MIN`, never truncates.  Theorems about this loop carry that bound as a
hypothesis. -/
def getAttributesLoop :
    List (GtkAccessibleTextRange × String × String) →
    List (String × String) × Int × Int →
    List (String × String) × Int × Int
  | [], acc => acc
  | (r, name, value) :: rest, (builder, start, stop) =>
      let start' := max start (r.start : Int)
      let stop' := min stop (start' + (r.length : Int))
      getAttributesLoop rest (builder ++ [(name, value)], start', stop')

/-- The `GetCaretOffset` branch (gtkatspitext.c:84-91). -/
def handle_GetCaretOffset (st : ATObjectState) :
    HandlerResult × ATObjectState :=
  let (offset, st) := gtk_accessible_text_get_caret_position st
  (.reply (.value (.i (gintOfNat offset))), st)

/-- The `GetText` branch (gtkatspitext.c:96-108). -/
def handle_GetText (st : ATObjectState) (parameters : MethodParams) :
    HandlerResult × ATObjectState :=
  match parameters with
  | .ii start stop =>
    let (contents, st) := gtk_accessible_text_get_contents st
      (intToGuint start) (if stop < 0 then G_MAXUINT else intToGuint stop)
    match contents with
    | some s => (.reply (.value (.s s)), st)
    | none => (.crash, st)
  | _ => (.crash, st)

/-- The `GetCharacterAtOffset` branch (gtkatspitext.c:121-139): it
fetches the slice `[offset, offset + 1)` of the contents, then replies
with the character at character index `offset` of that slice when
`0 <= offset && offset < g_utf8_strlen (str, -1)` holds of the slice,
and with code point 0 otherwise. -/
def handle_GetCharacterAtOffset (st : ATObjectState)
    (parameters : MethodParams) : HandlerResult × ATObjectState :=
  match parameters with
  | .i offset =>
    let (text, st) := gtk_accessible_text_get_contents st
      (intToGuint offset) (intToGuint (offset + 1))
    let ch : Nat :=
      match text with
      | none => 0
      | some str =>
        if 0 ≤ offset ∧ offset < (g_utf8_strlen str : Int) then
          g_utf8_get_char_at str offset.toNat
        else 0
    (.reply (.value (.i (gintOfNat ch))), st)
  | _ => (.crash, st)

/-- The `GetStringAtOffset` branch (gtkatspitext.c:140-159). -/
def handle_GetStringAtOffset (st : ATObjectState)
    (parameters : MethodParams) : HandlerResult × ATObjectState :=
  match parameters with
  | .iu offset granularity =>
    match atspi_granularity_to_gtk granularity with
    | none => (.crash, st)
    | some g =>
      let (bytes, st) := gtk_accessible_text_get_contents_at st
        (intToGuint offset) g
      match bytes with
      | none => (.reply (.value (.sii "" (-1) (-1))), st)
      | some (s, start, stop) =>
        (.reply (.value (.sii s (gintOfNat start) (gintOfNat stop))), st)
  | _ => (.crash, st)

/-- The `GetAttributes` branch (gtkatspitext.c:160-194). -/
def handle_GetAttributes (st : ATObjectState) (parameters : MethodParams) :
    HandlerResult × ATObjectState :=
  match parameters with
  | .i offset =>
    let (attrs, st) := gtk_accessible_text_get_attributes st
      (intToGuint offset)
    let acc := getAttributesLoop attrs ([], 0, G_MAXINT)
    (.reply (.value (.dict acc.1 acc.2.1 acc.2.2)), st)
  | _ => (.crash, st)

/-- The `GetAttributeValue` branch (gtkatspitext.c:195-223): the value of
the first attribute with the requested name, or the empty string. -/
def handle_GetAttributeValue (st : ATObjectState)
    (parameters : MethodParams) : HandlerResult × ATObjectState :=
  match parameters with
  | .istr offset name =>
    let (attrs, st) := gtk_accessible_text_get_attributes st
      (intToGuint offset)
    let val := ((attrs.find? fun t => t.2.1 = name).map fun t => t.2.2).getD ""
    (.reply (.value (.s val)), st)
  | _ => (.crash, st)

/-- The `GetNSelections` branch (gtkatspitext.c:233-243). -/
def handle_GetNSelections (st : ATObjectState) :
    HandlerResult × ATObjectState :=
  let (ranges, st) := gtk_accessible_text_get_selection st
  (.reply (.value (.i (gintOfNat ranges.length))), st)

/-- The `GetSelection` branch (gtkatspitext.c:244-265). -/
def handle_GetSelection (st : ATObjectState) (parameters : MethodParams) :
    HandlerResult × ATObjectState :=
  match parameters with
  | .i num =>
    let (ranges, st) := gtk_accessible_text_get_selection st
    if num < 0 ∨ (ranges.length : Int) ≤ num then
      (.reply (.error .invalidArgs ("Not a valid selection: " ++ toString num)), st)
    else
      let r := ranges.getD num.toNat default
      (.reply (.value (.ii (gintOfNat r.start) (gintOfNat (r.start + r.length)))), st)
  | _ => (.crash, st)

/-- Model of `accessible_text_handle_method` (gtkatspitext.c:70-298), with the
object state threaded through every capability call.  The dispatch chain
compares `method_name` against the method names in source order; a name
matching no branch falls through without a reply. -/
def accessible_text_handle_method_st (st : ATObjectState)
    (method_name : String) (parameters : MethodParams) :
    HandlerResult × ATObjectState :=
  if method_name = "GetCaretOffset" then
    handle_GetCaretOffset st
  else if method_name = "SetCaretOffset" then
    (.reply (.error .notSupported ""), st)
  else if method_name = "GetText" then
    handle_GetText st parameters
  else if method_name = "GetTextBeforeOffset" then
    (.reply (.error .notSupported
      "This method is deprecated in favor of GetStringAtOffset"), st)
  else if method_name = "GetTextAtOffset" then
    (.reply (.error .notSupported
      "This method is deprecated in favor of GetStringAtOffset"), st)
  else if method_name = "GetTextAfterOffset" then
    (.reply (.error .notSupported
      "This method is deprecated in favor of GetStringAtOffset"), st)
  else if method_name = "GetCharacterAtOffset" then
    handle_GetCharacterAtOffset st parameters
  else if method_name = "GetStringAtOffset" then
    handle_GetStringAtOffset st parameters
  else if method_name = "GetAttributes" then
    handle_GetAttributes st parameters
  else if method_name = "GetAttributeValue" then
    handle_GetAttributeValue st parameters
  else if method_name = "GetAttributeRun" then
    (.reply (.error .notSupported ""), st)
  else if method_name = "GetDefaultAttributes" ∨
          method_name = "GetDefaultAttributeSet" then
    (.reply (.error .notSupported ""), st)
  else if method_name = "GetNSelections" then
    handle_GetNSelections st
  else if method_name = "GetSelection" then
    handle_GetSelection st parameters
  else if method_name = "AddSelection" then
    (.reply (.error .notSupported ""), st)
  else if method_name = "RemoveSelection" then
    (.reply (.error .notSupported ""), st)
  else if method_name = "SetSelection" then
    (.reply (.error .notSupported ""), st)
  else if method_name = "GetCharacterExtents" then
    (.reply (.error .notSupported ""), st)
  else if method_name = "GetRangeExtents" then
    (.reply (.error .notSupported ""), st)
  else if method_name = "GetBoundedRanges" then
    (.reply (.error .notSupported ""), st)
  else if method_name = "ScrollSubstringTo" then
    (.reply (.error .notSupported ""), st)
  else if method_name = "ScrollSubstringToPoint" then
    (.reply (.error .notSupported ""), st)
  else
    (.noReply, st)

/-- The reply produced by one invocation of
`accessible_text_handle_method` on an object whose capability is `cap`. -/
def accessible_text_handle_method (cap : GtkAccessibleText)
    (method_name : String) (parameters : MethodParams) : HandlerResult :=
  (accessible_text_handle_method_st ⟨cap⟩ method_name parameters).1

/-- Result of one `accessible_text_get_property` call: a `GVariant`,
`NULL` for an unknown property name, or `undef` for the contract
violation of passing a `NULL` `GBytes` to `g_bytes_get_data`. -/
inductive PropResult where
  | value (v : WireValue)
  | noValue
  | undef
deriving Repr, DecidableEq

/-- The `CharacterCount` property branch (gtkatspitext.c:313-325): the
`g_utf8_strlen` of `get_contents (0, G_MAXUINT)`, cast to `int`. -/
def property_CharacterCount (st : ATObjectState) :
    PropResult × ATObjectState :=
  let (contents, st) := gtk_accessible_text_get_contents st 0 G_MAXUINT
  match contents with
  | some str => (.value (.i (gintOfNat (g_utf8_strlen str))), st)
  | none => (.undef, st)

/-- The `CaretOffset` property branch (gtkatspitext.c:326-333). -/
def property_CaretOffset (st : ATObjectState) :
    PropResult × ATObjectState :=
  let (offset, st) := gtk_accessible_text_get_caret_position st
  (.value (.i (gintOfNat offset)), st)

/-- Model of `accessible_text_get_property` (gtkatspitext.c:300-336), with the
object state threaded through every capability call. -/
def accessible_text_get_property_st (st : ATObjectState)
    (property_name : String) : PropResult × ATObjectState :=
  if property_name = "CharacterCount" then
    property_CharacterCount st
  else if property_name = "CaretOffset" then
    property_CaretOffset st
  else
    (.noValue, st)

/-- The value produced by one `accessible_text_get_property` call on an
object whose capability is `cap`. -/
def accessible_text_get_property (cap : GtkAccessibleText)
    (property_name : String) : PropResult :=
  (accessible_text_get_property_st ⟨cap⟩ property_name).1

/-- The fifteen method names whose branches only reply
`G_DBUS_ERROR_NOT_SUPPORTED`. -/
def stubMethods : List String :=
  ["SetCaretOffset", "GetTextBeforeOffset", "GetTextAtOffset",
   "GetTextAfterOffset", "GetAttributeRun", "GetDefaultAttributes",
   "GetDefaultAttributeSet", "AddSelection", "RemoveSelection",
   "SetSelection", "GetCharacterExtents", "GetRangeExtents",
   "GetBoundedRanges", "ScrollSubstringTo", "ScrollSubstringToPoint"]

/-- Every method name tested in the dispatch chain of
`accessible_text_handle_method`, in source order. -/
def knownMethods : List String :=
  ["GetCaretOffset", "SetCaretOffset", "GetText", "GetTextBeforeOffset",
   "GetTextAtOffset", "GetTextAfterOffset", "GetCharacterAtOffset",
   "GetStringAtOffset", "GetAttributes", "GetAttributeValue",
   "GetAttributeRun", "GetDefaultAttributes", "GetDefaultAttributeSet",
   "GetNSelections", "GetSelection", "AddSelection", "RemoveSelection",
   "SetSelection", "GetCharacterExtents", "GetRangeExtents",
   "GetBoundedRanges", "ScrollSubstringTo", "ScrollSubstringToPoint"]

/-- A capability with no contents, used to instantiate universally
quantified theorems at a concrete object. -/
def emptyCap : GtkAccessibleText where
  get_caret_position := 0
  get_contents := fun _ _ => some ""
  get_contents_at := fun _ _ => none
  get_attributes := fun _ => []
  get_selection := []

/-- The documented contract of `gtk_accessible_text_get_contents`: the
UTF-8 slice `[start, end)` of the contents, the end character excluded. -/
def sliceContents (text : String) (start stop : Nat) : Option String :=
  some (String.mk ((text.data.drop start).take (stop - start)))

/-- A capability holding the fixed text `text`, whose `get_contents`
returns the documented `[start, end)` slice. -/
def textCap (text : String) : GtkAccessibleText where
  get_caret_position := 0
  get_contents := sliceContents text
  get_contents_at := fun _ _ => none
  get_attributes := fun _ => []
  get_selection := []

/-- The successive values of the `start` accumulator of
`getAttributesLoop`, one per processed attribute, starting from `s`:
element `i` is the maximum of `s` and the starts of the first `i + 1`
ranges. -/
def runStarts (s : Int) : List GtkAccessibleTextRange → List Int
  | [] => []
  | r :: rs => max s (r.start : Int) :: runStarts (max s (r.start : Int)) rs

/-- A capability whose `get_contents_at` reports the slice `"word"` with
bounds `[2, 6)` at offset 2 with word granularity, and no contents
elsewhere; used to instantiate theorems at a concrete object. -/
def wordCap : GtkAccessibleText where
  get_caret_position := 0
  get_contents := fun _ _ => some ""
  get_contents_at := fun offset g =>
    if g = .word ∧ offset = 2 then some ("word", 2, 6) else none
  get_attributes := fun _ => []
  get_selection := []

/-- A capability reporting the single selection range `[2, 2 + 3)`; used
to instantiate theorems at a concrete object. -/
def selCap : GtkAccessibleText where
  get_caret_position := 0
  get_contents := fun _ _ => some ""
  get_contents_at := fun _ _ => none
  get_attributes := fun _ => []
  get_selection := [⟨2, 3⟩]

/-- A capability reporting two attribute runs, `"n1" = "v1"` over the
range `[5, 5 + 1)` and `"n2" = "v2"` over the range `[0, 0 + 3)`; used to
instantiate theorems at a concrete object. -/
def attrsCap : GtkAccessibleText where
  get_caret_position := 0
  get_contents := fun _ _ => some ""
  get_contents_at := fun _ _ => none
  get_attributes := fun _ => [(⟨5, 1⟩, "n1", "v1"), (⟨0, 3⟩, "n2", "v2")]
  get_selection := []

/-- On values of `int` range, the `int` → `unsigned int` conversion is
`Int.toNat`. -/
theorem intToGuint_eq_toNat {i : Int} (h0 : 0 ≤ i) (h1 : i < 2 ^ 32) :
    intToGuint i = i.toNat := by
  unfold intToGuint
  rw [Int.emod_eq_of_lt h0 h1]

/-- On values below `2 ^ 31`, the `(int)` cast of an unsigned value is the
value itself. -/
theorem gintOfNat_eq {n : Nat} (h : n < 2 ^ 31) : gintOfNat n = n := by
  unfold gintOfNat
  have h32 : n < 2 ^ 32 := lt_trans h (by norm_num)
  rw [Nat.mod_eq_of_lt h32, if_pos h]

/-- Dispatch reduction: an invocation named `GetText` runs the `GetText`
branch. -/
theorem handle_method_GetText (cap : GtkAccessibleText) (p : MethodParams) :
    accessible_text_handle_method cap "GetText" p
      = (handle_GetText ⟨cap⟩ p).1 := rfl

/-- Dispatch reduction: an invocation named `GetCharacterAtOffset` runs
the `GetCharacterAtOffset` branch. -/
theorem handle_method_GetCharacterAtOffset (cap : GtkAccessibleText)
    (p : MethodParams) :
    accessible_text_handle_method cap "GetCharacterAtOffset" p
      = (handle_GetCharacterAtOffset ⟨cap⟩ p).1 := rfl

/-- Dispatch reduction: an invocation named `GetStringAtOffset` runs the
`GetStringAtOffset` branch. -/
theorem handle_method_GetStringAtOffset (cap : GtkAccessibleText)
    (p : MethodParams) :
    accessible_text_handle_method cap "GetStringAtOffset" p
      = (handle_GetStringAtOffset ⟨cap⟩ p).1 := rfl

/-- Dispatch reduction: an invocation named `GetAttributes` runs the
`GetAttributes` branch. -/
theorem handle_method_GetAttributes (cap : GtkAccessibleText)
    (p : MethodParams) :
    accessible_text_handle_method cap "GetAttributes" p
      = (handle_GetAttributes ⟨cap⟩ p).1 := rfl

/-- Dispatch reduction: an invocation named `GetSelection` runs the
`GetSelection` branch. -/
theorem handle_method_GetSelection (cap : GtkAccessibleText)
    (p : MethodParams) :
    accessible_text_handle_method cap "GetSelection" p
      = (handle_GetSelection ⟨cap⟩ p).1 := rfl

/-- Dispatch reduction: a property read named `CharacterCount` runs the
`CharacterCount` branch. -/
theorem get_property_CharacterCount (cap : GtkAccessibleText) :
    accessible_text_get_property cap "CharacterCount"
      = (property_CharacterCount ⟨cap⟩).1 := rfl

/-- The `GetCaretOffset` branch leaves the object state unchanged. -/
theorem handle_GetCaretOffset_state (st : ATObjectState) :
    (handle_GetCaretOffset st).2 = st := rfl

/-- The `GetText` branch leaves the object state unchanged. -/
theorem handle_GetText_state (st : ATObjectState) (p : MethodParams) :
    (handle_GetText st p).2 = st := by
  cases p
  case ii a b =>
    simp only [handle_GetText, gtk_accessible_text_get_contents]
    split <;> rfl
  all_goals rfl

/-- The `GetCharacterAtOffset` branch leaves the object state unchanged. -/
theorem handle_GetCharacterAtOffset_state (st : ATObjectState)
    (p : MethodParams) :
    (handle_GetCharacterAtOffset st p).2 = st := by
  cases p <;> rfl

/-- The `GetStringAtOffset` branch leaves the object state unchanged. -/
theorem handle_GetStringAtOffset_state (st : ATObjectState)
    (p : MethodParams) :
    (handle_GetStringAtOffset st p).2 = st := by
  cases p
  case iu a u =>
    simp only [handle_GetStringAtOffset, gtk_accessible_text_get_contents_at]
    split
    · rfl
    · split <;> rfl
  all_goals rfl

/-- The `GetAttributes` branch leaves the object state unchanged. -/
theorem handle_GetAttributes_state (st : ATObjectState) (p : MethodParams) :
    (handle_GetAttributes st p).2 = st := by
  cases p <;> rfl

/-- The `GetAttributeValue` branch leaves the object state unchanged. -/
theorem handle_GetAttributeValue_state (st : ATObjectState)
    (p : MethodParams) :
    (handle_GetAttributeValue st p).2 = st := by
  cases p <;> rfl

/-- The `GetNSelections` branch leaves the object state unchanged. -/
theorem handle_GetNSelections_state (st : ATObjectState) :
    (handle_GetNSelections st).2 = st := rfl

/-- The `GetSelection` branch leaves the object state unchanged. -/
theorem handle_GetSelection_state (st : ATObjectState) (p : MethodParams) :
    (handle_GetSelection st p).2 = st := by
  cases p
  case i n =>
    simp only [handle_GetSelection, gtk_accessible_text_get_selection]
    split <;> rfl
  all_goals rfl

/-- The `CharacterCount` property branch leaves the object state
unchanged. -/
theorem property_CharacterCount_state (st : ATObjectState) :
    (property_CharacterCount st).2 = st := by
  simp only [property_CharacterCount, gtk_accessible_text_get_contents]
  split <;> rfl

/-- The `CaretOffset` property branch leaves the object state unchanged. -/
theorem property_CaretOffset_state (st : ATObjectState) :
    (property_CaretOffset st).2 = st := rfl

/-- Claim C1: for every D-Bus invocation of SetCaretOffset,
GetTextBeforeOffset, GetTextAtOffset, GetTextAfterOffset, GetAttributeRun,
GetDefaultAttributes, GetDefaultAttributeSet, AddSelection,
RemoveSelection, SetSelection, GetCharacterExtents, GetRangeExtents,
GetBoundedRanges, ScrollSubstringTo, or ScrollSubstringToPoint, the
handler replies with a `G_DBUS_ERROR_NOT_SUPPORTED` error and makes no
call into the accessible-text capability — formalised as: the result is a
`notSupported` error reply, and it is independent of the capability and
of the parameters. -/
theorem claim_C1 (m : String) (hm : m ∈ stubMethods)
    (cap cap' : GtkAccessibleText) (p p' : MethodParams) :
    (∃ msg, accessible_text_handle_method cap m p
      = .reply (.error .notSupported msg)) ∧
    accessible_text_handle_method cap m p
      = accessible_text_handle_method cap' m p' := by
  simp only [stubMethods, List.mem_cons, List.not_mem_nil, or_false] at hm
  rcases hm with rfl | rfl | rfl | rfl | rfl | rfl | rfl | rfl | rfl | rfl | rfl | rfl | rfl | rfl | rfl <;>
    exact ⟨⟨_, rfl⟩, rfl⟩

/-- Witness for claim C1 at the stub method `SetCaretOffset` and two
different concrete capabilities. -/
theorem claim_C1_witness :
    ("SetCaretOffset" ∈ stubMethods) ∧
    ((∃ msg, accessible_text_handle_method emptyCap "SetCaretOffset" .unit
      = .reply (.error .notSupported msg)) ∧
    accessible_text_handle_method emptyCap "SetCaretOffset" .unit
      = accessible_text_handle_method selCap "SetCaretOffset" (.i 7)) :=
  ⟨by decide, claim_C1 "SetCaretOffset" (by decide) emptyCap selCap .unit (.i 7)⟩

/-- Claim C2: every method dispatched by `accessible_text_handle_method`
and every property read by `accessible_text_get_property` leaves the
state of the accessible text object unchanged: the adapter only reads
from the `GtkAccessibleText` capability and never mutates it.  The object
state is threaded through every capability call, and both handlers return
it unchanged for every method name, parameter tuple and property name. -/
theorem claim_C2 (st : ATObjectState) (m : String) (p : MethodParams)
    (prop : String) :
    (accessible_text_handle_method_st st m p).2 = st ∧
    (accessible_text_get_property_st st prop).2 = st := by
  constructor
  · unfold accessible_text_handle_method_st
    by_cases h1 : m = "GetCaretOffset"
    · rw [if_pos h1]
      exact handle_GetCaretOffset_state st
    rw [if_neg h1]
    by_cases h2 : m = "SetCaretOffset"
    · rw [if_pos h2]
    rw [if_neg h2]
    by_cases h3 : m = "GetText"
    · rw [if_pos h3]
      exact handle_GetText_state st p
    rw [if_neg h3]
    by_cases h4 : m = "GetTextBeforeOffset"
    · rw [if_pos h4]
    rw [if_neg h4]
    by_cases h5 : m = "GetTextAtOffset"
    · rw [if_pos h5]
    rw [if_neg h5]
    by_cases h6 : m = "GetTextAfterOffset"
    · rw [if_pos h6]
    rw [if_neg h6]
    by_cases h7 : m = "GetCharacterAtOffset"
    · rw [if_pos h7]
      exact handle_GetCharacterAtOffset_state st p
    rw [if_neg h7]
    by_cases h8 : m = "GetStringAtOffset"
    · rw [if_pos h8]
      exact handle_GetStringAtOffset_state st p
    rw [if_neg h8]
    by_cases h9 : m = "GetAttributes"
    · rw [if_pos h9]
      exact handle_GetAttributes_state st p
    rw [if_neg h9]
    by_cases h10 : m = "GetAttributeValue"
    · rw [if_pos h10]
      exact handle_GetAttributeValue_state st p
    rw [if_neg h10]
    by_cases h11 : m = "GetAttributeRun"
    · rw [if_pos h11]
    rw [if_neg h11]
    by_cases h12 : m = "GetDefaultAttributes" ∨ m = "GetDefaultAttributeSet"
    · rw [if_pos h12]
    rw [if_neg h12]
    by_cases h13 : m = "GetNSelections"
    · rw [if_pos h13]
      exact handle_GetNSelections_state st
    rw [if_neg h13]
    by_cases h14 : m = "GetSelection"
    · rw [if_pos h14]
      exact handle_GetSelection_state st p
    rw [if_neg h14]
    by_cases h15 : m = "AddSelection"
    · rw [if_pos h15]
    rw [if_neg h15]
    by_cases h16 : m = "RemoveSelection"
    · rw [if_pos h16]
    rw [if_neg h16]
    by_cases h17 : m = "SetSelection"
    · rw [if_pos h17]
    rw [if_neg h17]
    by_cases h18 : m = "GetCharacterExtents"
    · rw [if_pos h18]
    rw [if_neg h18]
    by_cases h19 : m = "GetRangeExtents"
    · rw [if_pos h19]
    rw [if_neg h19]
    by_cases h20 : m = "GetBoundedRanges"
    · rw [if_pos h20]
    rw [if_neg h20]
    by_cases h21 : m = "ScrollSubstringTo"
    · rw [if_pos h21]
    rw [if_neg h21]
    by_cases h22 : m = "ScrollSubstringToPoint"
    · rw [if_pos h22]
    rw [if_neg h22]
  · unfold accessible_text_get_property_st
    by_cases g1 : prop = "CharacterCount"
    · rw [if_pos g1]
      exact property_CharacterCount_state st
    rw [if_neg g1]
    by_cases g2 : prop = "CaretOffset"
    · rw [if_pos g2]
      exact property_CaretOffset_state st
    rw [if_neg g2]

/-- Claim C3: for every `GetText` invocation with arguments
`(start, end)` in `int` range with `0 ≤ start`: if `end` is non-negative
the reply is the contents the capability returns for `[start, end)`; if
`end` is negative, the end bound passed to the capability is replaced by
`G_MAXUINT`, so `GetText (start, -1)` returns the contents from `start`
to the end of the text. -/
theorem claim_C3 (cap : GtkAccessibleText) (start stop : Int) (s t : String)
    (hs0 : 0 ≤ start) (hs1 : start < 2 ^ 31) :
    (0 ≤ stop → stop < 2 ^ 31 →
      cap.get_contents start.toNat stop.toNat = some s →
      accessible_text_handle_method cap "GetText" (.ii start stop)
        = .reply (.value (.s s))) ∧
    (stop < 0 →
      cap.get_contents start.toNat G_MAXUINT = some t →
      accessible_text_handle_method cap "GetText" (.ii start stop)
        = .reply (.value (.s t))) := by
  have hstart : intToGuint start = start.toNat :=
    intToGuint_eq_toNat hs0 (by omega)
  constructor
  · intro h0 h1 hc
    have hstop : intToGuint stop = stop.toNat := intToGuint_eq_toNat h0 (by omega)
    rw [handle_method_GetText]
    simp only [handle_GetText, gtk_accessible_text_get_contents, hstart, hstop,
      if_neg (not_lt.mpr h0), hc]
  · intro h0 hc
    rw [handle_method_GetText]
    simp only [handle_GetText, gtk_accessible_text_get_contents, hstart,
      if_pos h0, hc]

/-- Witness for claim C3 on a capability holding the text `"hello"`:
`GetText (1, 3)` replies `"el"` and `GetText (1, -1)` replies `"ello"`. -/
theorem claim_C3_witness :
    accessible_text_handle_method (textCap "hello") "GetText" (.ii 1 3)
      = .reply (.value (.s "el")) ∧
    accessible_text_handle_method (textCap "hello") "GetText" (.ii 1 (-1))
      = .reply (.value (.s "ello")) :=
  ⟨(claim_C3 (textCap "hello") 1 3 "el" "el" (by norm_num) (by norm_num)).1
      (by norm_num) (by norm_num) (by decide),
   (claim_C3 (textCap "hello") 1 (-1) "ello" "ello" (by norm_num) (by norm_num)).2
      (by norm_num) (by decide)⟩

/-- Claim C4: for every `GetStringAtOffset` invocation whose granularity
converts (and offset in `int` range, non-negative): when the capability
returns no contents (`NULL`), the reply is the triple `("", -1, -1)`;
otherwise the reply is the returned string together with the start and
end offsets reported by the capability. -/
theorem claim_C4 (cap : GtkAccessibleText) (offset : Int) (granularity : Nat)
    (g : GtkAccessibleTextGranularity)
    (hg : atspi_granularity_to_gtk granularity = some g)
    (h0 : 0 ≤ offset) (h1 : offset < 2 ^ 31) :
    (cap.get_contents_at offset.toNat g = none →
      accessible_text_handle_method cap "GetStringAtOffset" (.iu offset granularity)
        = .reply (.value (.sii "" (-1) (-1)))) ∧
    (∀ s start stop, cap.get_contents_at offset.toNat g = some (s, start, stop) →
      start < 2 ^ 31 → stop < 2 ^ 31 →
      accessible_text_handle_method cap "GetStringAtOffset" (.iu offset granularity)
        = .reply (.value (.sii s start stop))) := by
  have hoff : intToGuint offset = offset.toNat := intToGuint_eq_toNat h0 (by omega)
  constructor
  · intro hc
    rw [handle_method_GetStringAtOffset]
    simp only [handle_GetStringAtOffset, gtk_accessible_text_get_contents_at,
      hg, hoff, hc]
  · intro s start stop hc ha hb
    rw [handle_method_GetStringAtOffset]
    simp only [handle_GetStringAtOffset, gtk_accessible_text_get_contents_at,
      hg, hoff, hc, gintOfNat_eq ha, gintOfNat_eq hb]

/-- Witness for claim C4 on `wordCap`: the capability reports
`("word", 2, 6)` at offset 2 with word granularity (wire value 1) and no
contents at offset 0. -/
theorem claim_C4_witness :
    accessible_text_handle_method wordCap "GetStringAtOffset" (.iu 2 1)
      = .reply (.value (.sii "word" 2 6)) ∧
    accessible_text_handle_method wordCap "GetStringAtOffset" (.iu 0 1)
      = .reply (.value (.sii "" (-1) (-1))) :=
  ⟨(claim_C4 wordCap 2 1 .word (by decide) (by norm_num) (by norm_num)).2
      "word" 2 6 (by decide) (by norm_num) (by norm_num),
   (claim_C4 wordCap 0 1 .word (by decide) (by norm_num) (by norm_num)).1
      (by decide)⟩

/-- Claim C5: for every `GetSelection` invocation with argument `num`
(on a capability whose selection offsets are in `int` range): the handler
replies with a `G_DBUS_ERROR_INVALID_ARGS` error if and only if `num` is
negative or at least the number of reported ranges; otherwise it replies
with the pair `(start, start + length)` of the `num`-th reported range. -/
theorem claim_C5 (cap : GtkAccessibleText) (num : Int)
    (hsmall : ∀ r ∈ cap.get_selection, r.start + r.length < 2 ^ 31) :
    (accessible_text_handle_method cap "GetSelection" (.i num)
        = .reply (.error .invalidArgs ("Not a valid selection: " ++ toString num))
      ↔ num < 0 ∨ (cap.get_selection.length : Int) ≤ num) ∧
    (0 ≤ num → num < (cap.get_selection.length : Int) →
      accessible_text_handle_method cap "GetSelection" (.i num)
        = .reply (.value (.ii
            ((cap.get_selection.getD num.toNat default).start : Int)
            (((cap.get_selection.getD num.toNat default).start : Int)
              + ((cap.get_selection.getD num.toNat default).length : Int))))) := by
  constructor
  · rw [handle_method_GetSelection]
    by_cases hc : num < 0 ∨ (cap.get_selection.length : Int) ≤ num
    · simp only [handle_GetSelection, gtk_accessible_text_get_selection, if_pos hc]
      exact iff_of_true trivial hc
    · simp only [handle_GetSelection, gtk_accessible_text_get_selection, if_neg hc]
      exact iff_of_false (by simp) hc
  · intro h0 hlt
    have hc : ¬(num < 0 ∨ (cap.get_selection.length : Int) ≤ num) := by
      push_neg
      exact ⟨h0, hlt⟩
    have hn : num.toNat < cap.get_selection.length := by omega
    have hmem : cap.get_selection.getD num.toNat default ∈ cap.get_selection := by
      rw [List.getD_eq_getElem _ _ hn]
      exact List.getElem_mem hn
    have hr := hsmall _ hmem
    rw [handle_method_GetSelection]
    simp only [handle_GetSelection, gtk_accessible_text_get_selection, if_neg hc]
    rw [gintOfNat_eq (by omega), gintOfNat_eq hr]
    push_cast
    rfl

/-- Witness for claim C5 on `selCap` (one selection range `[2, 2 + 3)`):
`GetSelection 1` is rejected and `GetSelection 0` replies `(2, 5)`. -/
theorem claim_C5_witness :
    accessible_text_handle_method selCap "GetSelection" (.i 1)
      = .reply (.error .invalidArgs "Not a valid selection: 1") ∧
    accessible_text_handle_method selCap "GetSelection" (.i 0)
      = .reply (.value (.ii 2 5)) := by
  constructor
  · exact (claim_C5 selCap 1 (by decide)).1.mpr (by decide)
  · have h := (claim_C5 selCap 0 (by decide)).2 (by decide) (by decide)
    rw [h]
    decide

/-- Claim C6: `accessible_text_handle_method` replies only to the fixed
set of method names tested in its dispatch chain; for every method name
outside that set, the handler returns without sending any reply or error
on the invocation. -/
theorem claim_C6 (m : String) (hm : m ∉ knownMethods)
    (cap : GtkAccessibleText) (p : MethodParams) :
    accessible_text_handle_method cap m p = .noReply := by
  simp only [knownMethods, List.mem_cons, List.not_mem_nil, or_false, not_or] at hm
  obtain ⟨n1, n2, n3, n4, n5, n6, n7, n8, n9, n10, n11, n12, n13, n14, n15,
    n16, n17, n18, n19, n20, n21, n22, n23⟩ := hm
  unfold accessible_text_handle_method accessible_text_handle_method_st
  rw [if_neg n1, if_neg n2, if_neg n3, if_neg n4, if_neg n5, if_neg n6,
    if_neg n7, if_neg n8, if_neg n9, if_neg n10, if_neg n11,
    if_neg (not_or.mpr ⟨n12, n13⟩), if_neg n14, if_neg n15, if_neg n16,
    if_neg n17, if_neg n18, if_neg n19, if_neg n20, if_neg n21, if_neg n22,
    if_neg n23]

/-- Witness for claim C6 at the unknown method name `Foo`. -/
theorem claim_C6_witness :
    accessible_text_handle_method emptyCap "Foo" .unit = .noReply :=
  claim_C6 "Foo" (by decide) emptyCap .unit

/-- Claim C7: reading the `CharacterCount` property returns the number of
UTF-8 characters (not bytes) in the full contents the capability returns
for `(0, G_MAXUINT)` — its `g_utf8_strlen` — marshaled as an `int32`. -/
theorem claim_C7 (cap : GtkAccessibleText) (s : String)
    (h : cap.get_contents 0 G_MAXUINT = some s) :
    accessible_text_get_property cap "CharacterCount"
      = .value (.i (gintOfNat (g_utf8_strlen s))) := by
  rw [get_property_CharacterCount]
  simp only [property_CharacterCount, gtk_accessible_text_get_contents, h]

/-- Witness for claim C7 on a capability holding the text `"aé€"`: three
characters but six UTF-8 bytes, and the property replies 3. -/
theorem claim_C7_witness :
    accessible_text_get_property (textCap "aé€") "CharacterCount"
      = .value (.i 3) ∧
    "aé€".utf8ByteSize = 6 := by
  constructor
  · have h := claim_C7 (textCap "aé€") "aé€" (by decide)
    rw [h]
    decide
  · decide

/-- Claim C8 evaluation: the wire granularity is a plain `uint32`, and
the value 5 lies outside the `AtspiTextGranularity` enum, so a
`GetStringAtOffset` invocation carrying granularity 5 reaches the
`g_assert_not_reached` branch of `atspi_granularity_to_gtk` — the
assertion-failure branch is reachable by a remote caller, contrary to the
claim. -/
theorem claim_C8_eval :
    atspi_granularity_to_gtk 5 = none ∧
    accessible_text_handle_method emptyCap "GetStringAtOffset" (.iu 0 5)
      = .crash := by
  decide

/-- Claim C9 evaluation: on a capability holding the text `"abc"` (with
`get_contents` returning the documented `[start, end)` slice), the
character at offset 1 is `b` (code point 98), but `GetCharacterAtOffset 1`
replies code point 0: the branch fetches the one-character slice
`[offset, offset + 1)` and then requires `offset < g_utf8_strlen` of that
slice, which fails for every offset at least 1. -/
theorem claim_C9_eval :
    g_utf8_get_char_at "abc" 1 = 98 ∧
    accessible_text_handle_method (textCap "abc") "GetCharacterAtOffset" (.i 1)
      = .reply (.value (.i 0)) := by
  decide

/-- Counterexample to claim C10: on `attrsCap` (ranges `[5, 5 + 1)` then
`[0, 0 + 3)`), the claimed reply end — the minimum of the range ends
`start_i + length_i`, seeded with `G_MAXINT` — is 3, but the handler
replies end 6, because the loop computes `end` from the running maximum
`start`, not from `ranges[i].start`. -/
theorem claim_C10_counterexample :
    accessible_text_handle_method attrsCap "GetAttributes" (.i 0)
      = .reply (.value (.dict [("n1", "v1"), ("n2", "v2")] 5 6)) ∧
    min (min G_MAXINT ((5 : Int) + 1)) ((0 : Int) + 3) = 3 ∧
    (6 : Int) ≠ 3 := by
  decide

/-- Characterisation of the `GetAttributes` loop: it appends the
name/value pairs in order, folds `max` over the range starts for `start`,
and folds `min` over the pointwise sums of the running start maxima and
the range lengths for `end`. -/
theorem getAttributesLoop_eq (l : List (GtkAccessibleTextRange × String × String))
    (builder : List (String × String)) (s e : Int) :
    getAttributesLoop l (builder, s, e) =
      (builder ++ l.map fun t => (t.2.1, t.2.2),
       (l.map fun t => ((t.1.start : Int))).foldl max s,
       (List.zipWith (fun a c => a + c) (runStarts s (l.map fun t => t.1))
          (l.map fun t => ((t.1.length : Int)))).foldl min e) := by
  induction l generalizing builder s e with
  | nil => simp [getAttributesLoop, runStarts]
  | cons hd tl ih =>
    obtain ⟨r, name, value⟩ := hd
    simp only [getAttributesLoop, List.map_cons, runStarts,
      List.zipWith_cons_cons, List.foldl_cons, ih]
    simp

set_option linter.unusedVariables false in
/-- Claim C10 as amended: for every `GetAttributes` invocation on a
capability whose reported attribute ranges satisfy
`start + length < 2 ^ 31` (so the `int` accumulators of the C loop never
truncate the `gsize` range fields), the reply dictionary contains exactly
the attribute name/value pairs reported by the capability, in order; the
reply `start` is the maximum of 0 and all range starts; and the reply
`end` is the minimum, seeded with `G_MAXINT`, of the values
`m_i + length_i`, where `m_i` is the running maximum of 0 and the starts
of the first `i + 1` ranges (not `start_i + length_i` as the original
claim stated).  With zero attributes the bounds are `(0, G_MAXINT)`,
since both folds return their seeds. -/
theorem claim_C10_amended (cap : GtkAccessibleText) (offset : Int)
    (hsmall : ∀ t ∈ cap.get_attributes (intToGuint offset),
      t.1.start + t.1.length < 2 ^ 31) :
    accessible_text_handle_method cap "GetAttributes" (.i offset)
      = .reply (.value (.dict
          ((cap.get_attributes (intToGuint offset)).map fun t => (t.2.1, t.2.2))
          (((cap.get_attributes (intToGuint offset)).map fun t => ((t.1.start : Int))).foldl max 0)
          ((List.zipWith (fun a c => a + c)
              (runStarts 0 ((cap.get_attributes (intToGuint offset)).map fun t => t.1))
              ((cap.get_attributes (intToGuint offset)).map fun t => ((t.1.length : Int)))).foldl min G_MAXINT))) := by
  rw [handle_method_GetAttributes]
  simp only [handle_GetAttributes, gtk_accessible_text_get_attributes,
    getAttributesLoop_eq, List.nil_append]

/-- Witness for the amended claim C10 on `attrsCap` (ranges `[5, 5 + 1)`
then `[0, 0 + 3)`, all in `int` range): the reply carries both pairs with
bounds `(5, 6)`, matching the running-maximum formula. -/
theorem claim_C10_amended_witness :
    (∀ t ∈ attrsCap.get_attributes (intToGuint 0),
      t.1.start + t.1.length < 2 ^ 31) ∧
    accessible_text_handle_method attrsCap "GetAttributes" (.i 0)
      = .reply (.value (.dict [("n1", "v1"), ("n2", "v2")] 5 6)) := by
  constructor
  · decide
  · have h := claim_C10_amended attrsCap 0 (by decide)
    rw [h]
    decide
